import Mathlib

/-!
Verification of the sagemaker-python-sdk configuration layer.

This file shallowly embeds the pure configuration logic of the repository:

* `sagemaker/parameter.py` — the `ParameterRange` hierarchy
  (`is_valid`, `CategoricalParameter.__init__`, `as_tuning_range`,
  `as_json_range`);
* `sagemaker/rl/estimator.py` — the `RLEstimator` constructor-time
  validation, the toolkit/framework support table, the image-tag
  construction (`_image_version`, `_image_framework`) and the regex-based
  reverse tag parsing (`_toolkit_and_version_from_tag`), plus
  `_prepare_init_params_from_job_description`;
* `sagemaker/mxnet/estimator.py` — `MXNet._configure_distribution` and
  `MXNet._prepare_init_params_from_job_description`.

Python values that matter to these functions (ints, strings, enum
members, None) are embedded explicitly; machine-level details that the
source never exercises are out of scope.  Python exceptions are embedded
as an `Except` error type distinguishing `ValueError` from
`AttributeError`.  Error-message texts follow the source format strings,
with the cosmetic difference that ASCII backquotes and apostrophes of the
original messages are elided (they carry no semantic weight).
-/

namespace SagemakerSdk

/-- Python exceptions raised by the embedded code paths. -/
inductive PyErr : Type where
  | valueError (msg : String) : PyErr
  | attributeError (msg : String) : PyErr
  deriving Repr, DecidableEq

/-- The double-quote character, written numerically. -/
def quoteChar : Char := Char.ofNat 34

/-- The backslash character, written numerically. -/
def bsChar : Char := Char.ofNat 92

/-- The newline character, written numerically. -/
def nlChar : Char := Char.ofNat 10

/-- ASCII uppercase letter test, the semantics of the regex class `[A-Z]`. -/
def isUpperA (c : Char) : Bool := 65 ≤ c.toNat && c.toNat ≤ 90

/-- ASCII lowercase letter test, the semantics of the regex class `[a-z]`. -/
def isLowerA (c : Char) : Bool := 97 ≤ c.toNat && c.toNat ≤ 122

/-- ASCII digit test, the semantics of the regex class `\d` on ASCII input. -/
def isDigitA (c : Char) : Bool := 48 ≤ c.toNat && c.toNat ≤ 57

/-- Python truthiness of an optional string: `None` and the empty string
are falsy, every other string is truthy. -/
def falsyStr : Option String → Bool
  | none => true
  | some s => s == ""

/-- Embedded Python values appearing as hyperparameter-range inputs:
the source exercises integers and strings. -/
inductive PyVal : Type where
  | int (n : Int) : PyVal
  | str (s : String) : PyVal
  deriving Repr, DecidableEq

/-- Modelled from the spec: `sagemaker.utils.to_str` (the repository file
`sagemaker/utils.py` is not part of the provided sources) performs plain
string coercion and never fails; on an int it renders the decimal digits,
on a string it is the identity. -/
def to_str : PyVal → String
  | .int n => toString n
  | .str s => s

/-! ### ParameterRange (sagemaker/parameter.py) -/

/-- `ParameterRange.is_valid` for the continuous/integer variants:
`value >= self.min_value and value <= self.max_value`.  Numeric values are
embedded as rationals, which carry the ordering semantics shared by
Python ints and the non-exceptional floats the source compares. -/
def parameter_range_is_valid (min_value max_value value : ℚ) : Bool :=
  decide (value ≥ min_value) && decide (value ≤ max_value)

/-- The argument accepted by `CategoricalParameter.__init__`: either a
Python list of values or a single non-list object. -/
inductive CatInput : Type where
  | list (vs : List PyVal) : CatInput
  | single (v : PyVal) : CatInput
  deriving Repr, DecidableEq

/-- `CategoricalParameter.__init__`: a list input is mapped elementwise
through `to_str`; a non-list input becomes a one-element list. -/
def categorical_values : CatInput → List String
  | .list vs => vs.map to_str
  | .single v => [to_str v]

/-- `CategoricalParameter.is_valid`: membership in the coerced value list. -/
def categorical_is_valid (inp : CatInput) (value : String) : Bool :=
  (categorical_values inp).contains value

/-- `CategoricalParameter.as_tuning_range(name)["Values"]`: the stored
(string-coerced) values, unchanged. -/
def as_tuning_range_values (inp : CatInput) : List String :=
  categorical_values inp

/-! ### RLEstimator (sagemaker/rl/estimator.py): data and validation -/

/-- The `RLToolkit` enumeration. -/
inductive RLToolkit : Type where
  | coach : RLToolkit
  | ray : RLToolkit
  deriving Repr, DecidableEq

/-- The `.value` attribute of an `RLToolkit` member. -/
def RLToolkit.value : RLToolkit → String
  | .coach => "coach"
  | .ray => "ray"

/-- The `RLFramework` enumeration. -/
inductive RLFramework : Type where
  | tensorflow : RLFramework
  | mxnet : RLFramework
  deriving Repr, DecidableEq

/-- The `.value` attribute of an `RLFramework` member. -/
def RLFramework.value : RLFramework → String
  | .tensorflow => "tensorflow"
  | .mxnet => "mxnet"

/-- The domain of values a caller can pass for the enum-typed `toolkit`
and `framework` constructor arguments: a member of either enumeration.
(The constructor docstring types these arguments as enum members; the
embedding keeps that domain, so "not a member of RLToolkit" means
"a member of the other enumeration".) -/
inductive RLArg : Type where
  | toolkit (t : RLToolkit) : RLArg
  | framework (f : RLFramework) : RLArg
  deriving Repr, DecidableEq

/-- The `.value` attribute of whichever enum member was passed. -/
def RLArg.value : RLArg → String
  | .toolkit t => t.value
  | .framework f => f.value

/-- Python membership test `x in RLToolkit`. -/
def RLArg.inRLToolkit : RLArg → Bool
  | .toolkit _ => true
  | .framework _ => false

/-- Python membership test `x in RLFramework`. -/
def RLArg.inRLFramework : RLArg → Bool
  | .toolkit _ => false
  | .framework _ => true

/-- `PYTHON_VERSION` constant of `sagemaker/rl/estimator.py`. -/
def PYTHON_VERSION : String := "py3"

/-- `TOOLKIT_FRAMEWORK_VERSION_MAP`: the fixed nested mapping
toolkit → toolkit_version → framework → framework_version, embedded as
nested association lists in the source's insertion order. -/
def TOOLKIT_FRAMEWORK_VERSION_MAP :
    List (String × List (String × List (String × String))) :=
  [("coach",
     [("0.10.1", [("tensorflow", "1.11")]),
      ("0.10", [("tensorflow", "1.11")]),
      ("0.11.0", [("tensorflow", "1.11"), ("mxnet", "1.3")]),
      ("0.11.1", [("tensorflow", "1.12")]),
      ("0.11", [("tensorflow", "1.12"), ("mxnet", "1.3")])]),
   ("ray",
     [("0.5.3", [("tensorflow", "1.11")]),
      ("0.5", [("tensorflow", "1.11")]),
      ("0.6.5", [("tensorflow", "1.12")]),
      ("0.6", [("tensorflow", "1.12")])])]

/-- Association-list lookup, the embedding of Python `dict.get(key, None)`
on the literal dictionaries above. -/
def lookupAssoc {α : Type} (xs : List (String × α)) (k : String) : Option α :=
  match xs with
  | [] => none
  | (k0, v) :: rest => if k0 = k then some v else lookupAssoc rest k

/-- The chained indexing `TOOLKIT_FRAMEWORK_VERSION_MAP[tk][tkv][fw]`
(as an Option; the source only performs it after a supportedness check). -/
def lookupTFV (tk tkv fw : String) : Option String :=
  match lookupAssoc TOOLKIT_FRAMEWORK_VERSION_MAP tk with
  | none => none
  | some vs =>
    match lookupAssoc vs tkv with
    | none => none
    | some fws => lookupAssoc fws fw

/-- `RLEstimator._is_combination_supported`, including the Python
truthiness checks on each intermediate lookup result (`if d:` on a dict
is an emptiness test, on the final version string an emptiness test). -/
def is_combination_supported (tk tkv fw : String) : Bool :=
  match lookupAssoc TOOLKIT_FRAMEWORK_VERSION_MAP tk with
  | none => false
  | some vs =>
    if vs.isEmpty then false
    else
      match lookupAssoc vs tkv with
      | none => false
      | some fws =>
        if fws.isEmpty then false
        else
          match lookupAssoc fws fw with
          | none => false
          | some v => !(v == "")

/-- Error message of `RLEstimator._validate_toolkit_format`
(the Python repr list of valid members is abbreviated to their values). -/
def toolkit_format_error (v : String) : String :=
  "Invalid type: " ++ v ++ ", valid RL toolkits types are: coach, ray"

/-- Error message of `RLEstimator._validate_framework_format`. -/
def framework_format_error (v : String) : String :=
  "Invalid type: " ++ v ++ ", valid RL frameworks types are: tensorflow, mxnet"

/-- `RLEstimator._validate_toolkit_format`: a truthy `toolkit` argument
that is not a member of `RLToolkit` raises `ValueError`. -/
def validate_toolkit_format (toolkit : Option RLArg) : Except PyErr Unit :=
  match toolkit with
  | none => .ok ()
  | some a => if a.inRLToolkit then .ok () else .error (.valueError (toolkit_format_error a.value))

/-- `RLEstimator._validate_framework_format`: a truthy `framework`
argument that is not a member of `RLFramework` raises `ValueError`. -/
def validate_framework_format (framework : Option RLArg) : Except PyErr Unit :=
  match framework with
  | none => .ok ()
  | some a => if a.inRLFramework then .ok () else .error (.valueError (framework_format_error a.value))

/-- The warning `_validate_images_args` logs when `image_name` is given
together with toolkit/framework arguments (backquotes of the source
message elided). -/
def image_ignore_warning (found : List String) : String :=
  "Parameter image_name is specified, " ++ String.intercalate ", " found ++
    " are going to be ignored when choosing the image."

/-- The error message `_validate_images_args` raises when `image_name` is
absent and toolkit arguments are missing. -/
def missing_args_error (missing : List String) : String :=
  "Please provide " ++ String.intercalate ", " missing ++ " or image_name parameter."

/-- `RLEstimator._validate_images_args`: type-validates the enum
arguments first, then (without an image) requires all three toolkit
arguments, or (with an image) logs a warning listing the arguments that
will be ignored.  Returns the list of logged warnings. -/
def validate_images_args (toolkit : Option RLArg) (toolkit_version : Option String)
    (framework : Option RLArg) (image_name : Option String) : Except PyErr (List String) :=
  match validate_toolkit_format toolkit with
  | .error e => .error e
  | .ok _ =>
    match validate_framework_format framework with
    | .error e => .error e
    | .ok _ =>
      if falsyStr image_name then
        let missing : List String :=
          (if toolkit.isNone then ["toolkit"] else []) ++
          (if falsyStr toolkit_version then ["toolkit_version"] else []) ++
          (if framework.isNone then ["framework"] else [])
        if missing.isEmpty then .ok []
        else .error (.attributeError (missing_args_error missing))
      else
        let found : List String :=
          (if toolkit.isSome then ["toolkit"] else []) ++
          (if !falsyStr toolkit_version then ["toolkit_version"] else []) ++
          (if framework.isSome then ["framework"] else [])
        if found.isEmpty then .ok []
        else .ok [image_ignore_warning found]

/-- Error message of `RLEstimator._validate_toolkit_support`. -/
def unsupported_combination_error (tk tkv fw : String) : String :=
  "Provided " ++ tk ++ "-" ++ tkv ++ " and " ++ fw ++ " combination is not supported."

/-- A metric definition: the Name and Regex fields of one entry. -/
abbrev MetricDefinition : Type := String × String

/-- `RLEstimator.default_metric_definitions`, chosen by toolkit identity. -/
def default_metric_definitions (toolkit : Option RLArg) : List MetricDefinition :=
  match toolkit with
  | some (.toolkit .coach) =>
    [("reward-training", "^Training>.*Total reward=(.*?),"),
     ("reward-testing", "^Testing>.*Total reward=(.*?),")]
  | some (.toolkit .ray) =>
    [("episode_reward_mean",
      "episode_reward_mean: ([-+]?[0-9]*[.]?[0-9]+([eE][-+]?[0-9]+)?)"),
     ("episode_reward_max",
      "episode_reward_max: ([-+]?[0-9]*[.]?[0-9]+([eE][-+]?[0-9]+)?)")]
  | _ => []

/-- The configuration state an `RLEstimator.__init__` call produces: the
attributes the constructor sets.  When an explicit image is given the
toolkit attributes are never assigned (`none`). -/
structure RLState : Type where
  toolkit : Option String
  toolkit_version : Option String
  framework : Option String
  framework_version : Option String
  image_name : Option String
  metric_definitions : Option (List MetricDefinition)
  deriving Repr, DecidableEq

/-- Python truthiness of the `metric_definitions` argument: `None` and an
empty list are falsy. -/
def falsyMD : Option (List MetricDefinition) → Bool
  | none => true
  | some l => l.isEmpty

/-- `RLEstimator.__init__` up to the `super().__init__` delegation: runs
`_validate_images_args`, and without an explicit image additionally
`_validate_toolkit_support`, resolves `framework_version` through the
support table and fills default metric definitions.  Returns the
resulting attribute state together with the logged warnings.  All errors
are raised synchronously, before any remote interaction (the embedded
fragment performs none). -/
def rl_init (toolkit : Option RLArg) (toolkit_version : Option String)
    (framework : Option RLArg) (image_name : Option String)
    (metric_definitions : Option (List MetricDefinition)) :
    Except PyErr (RLState × List String) :=
  match validate_images_args toolkit toolkit_version framework image_name with
  | .error e => .error e
  | .ok warns =>
    if falsyStr image_name then
      let tk := (toolkit.map RLArg.value).getD ""
      let tkv := toolkit_version.getD ""
      let fw := (framework.map RLArg.value).getD ""
      if is_combination_supported tk tkv fw then
        let md := if falsyMD metric_definitions then some (default_metric_definitions toolkit)
                  else metric_definitions
        .ok ({ toolkit := some tk, toolkit_version := some tkv, framework := some fw,
               framework_version := some ((lookupTFV tk tkv fw).getD ""),
               image_name := image_name, metric_definitions := md }, warns)
      else .error (.attributeError (unsupported_combination_error tk tkv fw))
    else
      .ok ({ toolkit := none, toolkit_version := none, framework := none,
             framework_version := none, image_name := image_name,
             metric_definitions := metric_definitions }, warns)

/-- `RLEstimator._image_version`: toolkit name concatenated with the
toolkit version. -/
def rl_image_version (toolkit toolkit_version : String) : String :=
  toolkit ++ toolkit_version

/-- `RLEstimator._image_framework`: `rl-` concatenated with the backing
framework name. -/
def rl_image_framework (framework : String) : String :=
  "rl-" ++ framework

/-- Modelled from the spec: the repo segment of a managed RL image is
`rl-<framework>` and `fw_utils.framework_name_from_image` (the file
`sagemaker/fw_utils.py` is not part of the provided sources) recovers the
framework name from it. -/
def rl_framework_from_repo (repo : String) : Option String :=
  if repo.toList.take 3 = "rl-".toList then some (String.mk (repo.toList.drop 3)) else none

/-- Modelled from the spec: `fw_utils.create_image_uri` builds
`<registry>/<repo>:<version>-<device>-<pyversion>`; the registry host is
abstracted as a parameter. -/
def create_image_uri (registry repo device version py_version : String) : String :=
  registry ++ "/" ++ repo ++ ":" ++ version ++ "-" ++ device ++ "-" ++ py_version

/-- The image tag `create_image_uri` attaches for an RL estimator:
`_image_version()` suffixed with the device and python-version segments. -/
def rl_image_tag (toolkit toolkit_version device py_version : String) : String :=
  rl_image_version toolkit toolkit_version ++ "-" ++ device ++ "-" ++ py_version

/-- `RLEstimator.train_image`: a truthy explicit `image_name` is returned
verbatim, otherwise the managed image URI is derived from the state. -/
def rl_train_image (st : RLState) (registry device : String) : String :=
  if falsyStr st.image_name then
    create_image_uri registry (rl_image_framework (st.framework.getD ""))
      device (rl_image_version (st.toolkit.getD "") (st.toolkit_version.getD ""))
      PYTHON_VERSION
  else st.image_name.getD ""

/-- `SAGEMAKER_ESTIMATOR` hyperparameter key constant. -/
def SAGEMAKER_ESTIMATOR : String := "sagemaker_estimator"

/-- `SAGEMAKER_ESTIMATOR_VALUE` constant. -/
def SAGEMAKER_ESTIMATOR_VALUE : String := "RLEstimator"

/-- Modelled from the spec: the `SAGEMAKER_OUTPUT_LOCATION` key imported
from `sagemaker/model.py` (not part of the provided sources). -/
def SAGEMAKER_OUTPUT_LOCATION : String := "sagemaker_s3_output"

/-! ### The RL image-tag parsing regex

`RLEstimator._toolkit_and_version_from_tag` matches the Python regex
`^([A-Z]*|[a-z]*)(\d.*)-(cpu|gpu)-(py2|py3)$` against the tag and returns
`(group 1, group 2)` on a match, `(None, None)` otherwise.  The regex is
anchored on both sides and the part after group 2 has fixed length 8, so
the Python backtracking engine is deterministic here; the embedding
implements that deterministic procedure directly.  Python's `$` also
matches just before one trailing newline, and `.` never matches a
newline; both are reflected below.  (`\d`, `[A-Z]`, `[a-z]` are read in
their ASCII sense.) -/

/-- The four admissible 8-character tails `-(cpu|gpu)-(py2|py3)`. -/
def validTagTail (t : List Char) : Bool :=
  (t == "-cpu-py2".toList) || (t == "-cpu-py3".toList) ||
  (t == "-gpu-py2".toList) || (t == "-gpu-py3".toList)

/-- Group 2 of the regex, `\d.*`: nonempty, leading ASCII digit, and no
newline afterwards (Python `.` does not match a newline). -/
def versionOk : List Char → Bool
  | [] => false
  | d :: rest => isDigitA d && rest.all (fun c => !(c == nlChar))

/-- Matching `([A-Z]*|[a-z]*)(\d.*)` against the part of the tag before
the fixed tail, exactly as the backtracking engine resolves it: the
greedy uppercase run is tried first, then the greedy lowercase run. -/
def splitLettersVersion (p : List Char) : Option (List Char × List Char) :=
  let u := p.takeWhile isUpperA
  let ru := p.dropWhile isUpperA
  if versionOk ru then some (u, ru)
  else
    let l := p.takeWhile isLowerA
    let rl := p.dropWhile isLowerA
    if versionOk rl then some (l, rl) else none

/-- The anchored match against a string with no trailing-newline
allowance: tail = last 8 characters, groups from the rest. -/
def rlTagCoreParse (s : List Char) : Option (List Char × List Char) :=
  if s.length < 8 then none
  else
    let p := s.take (s.length - 8)
    let t := s.drop (s.length - 8)
    if validTagTail t then splitLettersVersion p else none

/-- `RLEstimator._toolkit_and_version_from_tag` on the character list of
the tag: Python `$` additionally matches just before a single trailing
newline. -/
def rlTagParse (s : List Char) : Option (List Char × List Char) :=
  if s.getLast? == some nlChar then rlTagCoreParse s.dropLast else rlTagCoreParse s

/-- `RLEstimator._toolkit_and_version_from_tag` (string interface);
`none` embeds the `(None, None)` non-match result. -/
def toolkit_and_version_from_tag (tag : String) : Option (String × String) :=
  (rlTagParse tag.toList).map (fun p => (String.mk p.1, String.mk p.2))

/-- Declarative reading of the anchored regex on a string that does not
use the trailing-newline allowance: a decomposition into a letters group
(all ASCII uppercase or all ASCII lowercase), a version group (leading
digit, no newline), and one of the four fixed tails. -/
def TagCoreMatch (s letters ver : List Char) : Prop :=
  ∃ t, s = letters ++ ver ++ t ∧
    ((∀ c ∈ letters, isUpperA c = true) ∨ (∀ c ∈ letters, isLowerA c = true)) ∧
    versionOk ver = true ∧ validTagTail t = true

/-- Declarative reading of the full Python match semantics: either the
whole string matches, or everything before a single trailing newline
does. -/
def TagMatch (s letters ver : List Char) : Prop :=
  TagCoreMatch s letters ver ∨
  (∃ s0, s = s0 ++ [nlChar] ∧ TagCoreMatch s0 letters ver)

/-! ### Reverse mapping: job description → init params -/

/-- The error message both reconstruction paths raise on a framework
mismatch (apostrophe of the source message elided). -/
def mismatch_error (training_job_name : String) : String :=
  "Training job: " ++ training_job_name ++ " did not use image for requested framework"

/-- `MXNet.__framework_name__`. -/
def mxnet_framework_name : String := "mxnet"

/-- Modelled from the spec: `fw_utils.framework_version_from_tag` (the
file `sagemaker/fw_utils.py` is not part of the provided sources) reads
the version segment of a managed tag `<version>-<device>-<py>`; embedded
as the text before the first hyphen. -/
def framework_version_from_tag (tag : String) : String :=
  String.mk (tag.toList.takeWhile (fun c => !(c == '-')))

/-- The fields of the reconstructed init params that the embedded
`_prepare_init_params_from_job_description` fragments manipulate. -/
structure ReconstructedParams : Type where
  image_name : Option String
  py_version : Option String
  framework_version : Option String
  toolkit : Option RLToolkit
  toolkit_version : Option String
  framework : Option RLFramework
  base_job_name : String
  deriving Repr, DecidableEq

/-- `MXNet._prepare_init_params_from_job_description` after the base
class has extracted the image reference: `framework` and `py_version` are
the outputs of `framework_name_from_image` on that image (`none`
embeds an unrecognized image).  An unrecognized image passes through; a
recognized image of a different framework raises `ValueError`. -/
def mxnet_prepare_init_params (framework : Option String) (py_version : String)
    (tag : String) (image : String) (base_job_name : String) :
    Except PyErr ReconstructedParams :=
  if falsyStr framework then
    .ok { image_name := some image, py_version := none, framework_version := none,
          toolkit := none, toolkit_version := none, framework := none,
          base_job_name := base_job_name }
  else
    let fw := framework.getD ""
    let fwv := if tag == "1.0" then "0.12" else framework_version_from_tag tag
    if fw == mxnet_framework_name then
      .ok { image_name := none, py_version := some py_version,
            framework_version := some fwv, toolkit := none, toolkit_version := none,
            framework := none, base_job_name := base_job_name }
    else .error (.valueError (mismatch_error base_job_name))

/-- `RLEstimator._prepare_init_params_from_job_description` after the
base class has extracted the image reference: an unrecognized image
passes through; otherwise the tag is reverse-parsed and the
(toolkit, toolkit_version, framework) combination must be supported,
else `ValueError`. -/
def rl_prepare_init_params (framework : Option String) (tag : String)
    (image : String) (base_job_name : String) : Except PyErr ReconstructedParams :=
  if falsyStr framework then
    .ok { image_name := some image, py_version := none, framework_version := none,
          toolkit := none, toolkit_version := none, framework := none,
          base_job_name := base_job_name }
  else
    let fw := framework.getD ""
    match toolkit_and_version_from_tag tag with
    | none => .error (.valueError (mismatch_error base_job_name))
    | some (tk, tkv) =>
      if is_combination_supported tk tkv fw then
        .ok { image_name := none, py_version := none, framework_version := none,
              toolkit := if tk == "coach" then some .coach else some .ray,
              toolkit_version := some tkv,
              framework := if fw == "tensorflow" then some .tensorflow else some .mxnet,
              base_job_name := base_job_name }
      else .error (.valueError (mismatch_error base_job_name))

/-! ### MXNet distribution configuration (sagemaker/mxnet/estimator.py) -/

/-- Python string `<` comparison: lexicographic on code points. -/
def pyStrLtChars : List Char → List Char → Bool
  | [], [] => false
  | [], _ :: _ => true
  | _ :: _, [] => false
  | a :: as1, b :: bs1 =>
    if a.toNat < b.toNat then true
    else if b.toNat < a.toNat then false
    else pyStrLtChars as1 bs1

/-- Python list-of-strings `<` comparison: lexicographic over the string
comparison, with the shorter list smaller on ties.  This is the exact
operation `_configure_distribution` applies — it compares the version
components as strings, not as numbers. -/
def pyStrListLt : List String → List String → Bool
  | [], [] => false
  | [], _ :: _ => true
  | _ :: _, [] => false
  | a :: as1, b :: bs1 =>
    if a == b then pyStrListLt as1 bs1
    else pyStrLtChars a.toList b.toList

/-- Python `"1.10".split(".")` for a one-character separator. -/
def pySplitAux (sep : Char) : List Char → List Char → List String
  | [], acc => [String.mk acc.reverse]
  | c :: rest, acc =>
    if c == sep then String.mk acc.reverse :: pySplitAux sep rest []
    else pySplitAux sep rest (c :: acc)

/-- Python `s.split(sep)` with a one-character separator. -/
def pySplit (s : String) (sep : Char) : List String :=
  pySplitAux sep s.toList []

/-- `MXNet._LOWEST_SCRIPT_MODE_VERSION`. -/
def LOWEST_SCRIPT_MODE_VERSION : List String := ["1", "3"]

/-- Modelled from the spec: `Framework.LAUNCH_PS_ENV_NAME` defined in
`sagemaker/estimator.py` (not part of the provided sources), the
hyperparameter key for the parameter-server flag. -/
def LAUNCH_PS_ENV_NAME : String := "sagemaker_parameter_server_enabled"

/-- The `distributions` constructor argument, restricted to the parts
`_configure_distribution` reads: whether a `parameter_server` entry is
present, and if so whether it carries an `enabled` key. -/
structure DistributionsDict : Type where
  parameter_server : Option (Option Bool)
  deriving Repr, DecidableEq

/-- Error message of `_configure_distribution` (the joined lower bound). -/
def distributions_version_error : String :=
  "The distributions option is valid for only versions " ++
    String.intercalate "." LOWEST_SCRIPT_MODE_VERSION ++ " and higher"

/-- `MXNet._configure_distribution`: `None` is a no-op; otherwise the
framework version, split on dots, is compared — as a Python list of
strings — against `_LOWEST_SCRIPT_MODE_VERSION`, raising `ValueError`
when smaller; then a present `parameter_server` entry adds its `enabled`
flag (default `False`) under `LAUNCH_PS_ENV_NAME`.  Returns the
hyperparameter entries added. -/
def mxnet_configure_distribution (framework_version : String)
    (distributions : Option DistributionsDict) : Except PyErr (List (String × Bool)) :=
  match distributions with
  | none => .ok []
  | some d =>
    if pyStrListLt (pySplit framework_version '.') LOWEST_SCRIPT_MODE_VERSION then
      .error (.valueError distributions_version_error)
    else
      match d.parameter_server with
      | none => .ok []
      | some enabled => .ok [(LAUNCH_PS_ENV_NAME, enabled.getD false)]

/-! ### JSON serialization (Python json.dumps / json.loads on strings)

`CategoricalParameter.as_json_range` applies `json.dumps` to each stored
(string-coerced) value, so only the JSON behavior on strings and numbers
matters.  `json.dumps` with its defaults (`ensure_ascii=True`) escapes
the double quote, the backslash, the control characters (with the short
forms for backspace, tab, newline, formfeed, carriage return) and every
character outside printable ASCII via `\uXXXX`; characters at or above
U+10000 use surrogate pairs, which this model does not implement — the
round-trip theorems therefore carry the hypothesis that input characters
lie below U+10000. -/

/-- Lowercase hex digit for one nibble. -/
def hexDigitChar (n : Nat) : Char :=
  if n < 10 then Char.ofNat (48 + n) else Char.ofNat (87 + n)

/-- The escape `json.dumps` emits for one character of a string. -/
def jsonEscapeChar (c : Char) : List Char :=
  if c == quoteChar then [bsChar, quoteChar]
  else if c == bsChar then [bsChar, bsChar]
  else if c.toNat == 8 then [bsChar, 'b']
  else if c.toNat == 9 then [bsChar, 't']
  else if c.toNat == 10 then [bsChar, 'n']
  else if c.toNat == 12 then [bsChar, 'f']
  else if c.toNat == 13 then [bsChar, 'r']
  else if c.toNat < 32 || 127 ≤ c.toNat then
    [bsChar, 'u', hexDigitChar (c.toNat / 4096 % 16), hexDigitChar (c.toNat / 256 % 16),
     hexDigitChar (c.toNat / 16 % 16), hexDigitChar (c.toNat % 16)]
  else [c]

/-- `json.dumps` on a string: a quoted, escaped character sequence. -/
def jsonDumpsChars (s : List Char) : List Char :=
  quoteChar :: (s.map jsonEscapeChar).flatten ++ [quoteChar]

/-- `json.dumps` on a string, string interface. -/
def json_dumps_str (s : String) : String :=
  String.mk (jsonDumpsChars s.toList)

/-- `CategoricalParameter.as_json_range(name)["Values"]`: each stored
value individually JSON-encoded. -/
def as_json_range_values (inp : CatInput) : List String :=
  (categorical_values inp).map json_dumps_str

/-- Hex digit value, both cases, as `json.loads` accepts it. -/
def parseHexDigit (c : Char) : Option Nat :=
  if 48 ≤ c.toNat && c.toNat ≤ 57 then some (c.toNat - 48)
  else if 97 ≤ c.toNat && c.toNat ≤ 102 then some (c.toNat - 87)
  else if 65 ≤ c.toNat && c.toNat ≤ 70 then some (c.toNat - 55)
  else none

/-- `json.loads` string-body scanning, from just after the opening quote:
returns the decoded content and the characters after the closing quote.
Unescaped control characters and unknown escapes are rejected, like the
strict Python decoder. -/
def parseStringBody : List Char → Option (List Char × List Char)
  | [] => none
  | c :: rest =>
    if c == quoteChar then some ([], rest)
    else if c == bsChar then
      match rest with
      | [] => none
      | e :: rest2 =>
        if e == quoteChar then (parseStringBody rest2).map (fun r => (quoteChar :: r.1, r.2))
        else if e == bsChar then (parseStringBody rest2).map (fun r => (bsChar :: r.1, r.2))
        else if e == '/' then (parseStringBody rest2).map (fun r => ( '/' :: r.1, r.2))
        else if e == 'b' then (parseStringBody rest2).map (fun r => (Char.ofNat 8 :: r.1, r.2))
        else if e == 't' then (parseStringBody rest2).map (fun r => (Char.ofNat 9 :: r.1, r.2))
        else if e == 'n' then (parseStringBody rest2).map (fun r => (Char.ofNat 10 :: r.1, r.2))
        else if e == 'f' then (parseStringBody rest2).map (fun r => (Char.ofNat 12 :: r.1, r.2))
        else if e == 'r' then (parseStringBody rest2).map (fun r => (Char.ofNat 13 :: r.1, r.2))
        else if e == 'u' then
          match rest2 with
          | h1 :: h2 :: h3 :: h4 :: rest3 =>
            match parseHexDigit h1, parseHexDigit h2, parseHexDigit h3, parseHexDigit h4 with
            | some d1, some d2, some d3, some d4 =>
              (parseStringBody rest3).map
                (fun r => (Char.ofNat (4096 * d1 + 256 * d2 + 16 * d3 + d4) :: r.1, r.2))
            | _, _, _, _ => none
          | _ => none
        else none
    else if c.toNat < 32 then none
    else (parseStringBody rest).map (fun r => (c :: r.1, r.2))

/-- Decimal digit-run value for the integer case of `json.loads`. -/
def parseNatDigits (s : List Char) : Option Nat :=
  match s with
  | [] => none
  | _ =>
    if s.all isDigitA then some (s.foldl (fun a c => 10 * a + (c.toNat - 48)) 0)
    else none

/-- `json.loads` restricted to the documents relevant here: a JSON string
or a JSON integer, decoding to the corresponding Python value. -/
def json_loads_chars (s : List Char) : Option PyVal :=
  match s with
  | [] => none
  | c :: rest =>
    if c == quoteChar then
      match parseStringBody rest with
      | some (content, []) => some (.str (String.mk content))
      | _ => none
    else if c == '-' then (parseNatDigits rest).map (fun n => .int (-(n : Int)))
    else (parseNatDigits s).map (fun n => .int (n : Int))

/-- `json.loads`, string interface. -/
def json_loads_str (s : String) : Option PyVal :=
  json_loads_chars s.toList

/-- `RLEstimator.hyperparameters`: the base Framework hyperparameters
plus the JSON-encoded output location and estimator marker.  Nothing in
it is derived from the toolkit attributes. -/
def rl_hyperparameters (base : List (String × String)) (output_path : String) :
    List (String × String) :=
  base ++ [(SAGEMAKER_OUTPUT_LOCATION, json_dumps_str output_path),
           (SAGEMAKER_ESTIMATOR, json_dumps_str SAGEMAKER_ESTIMATOR_VALUE)]

/-- All (toolkit, toolkit_version, framework) triples of the support
table, flattened in table order. -/
def rl_supported_triples : List (String × String × String) :=
  TOOLKIT_FRAMEWORK_VERSION_MAP.flatMap
    (fun p => p.2.flatMap (fun q => q.2.map (fun r => (p.1, q.1, r.1))))

/-!
## Theorems

Helper lemmas come first, then one theorem per claim (with a witness
where the claim theorem carries hypotheses).
-/

theorem takeWhile_cons_neg (p : Char → Bool) (c : Char) (l : List Char)
    (h : p c = false) : (c :: l).takeWhile p = [] := by
  simp [List.takeWhile, h]

theorem dropWhile_cons_neg (p : Char → Bool) (c : Char) (l : List Char)
    (h : p c = false) : (c :: l).dropWhile p = c :: l := by
  simp [List.dropWhile, h]

theorem isDigitA_not_upper {c : Char} (h : isDigitA c = true) : isUpperA c = false := by
  simp only [isDigitA, Bool.and_eq_true, decide_eq_true_eq] at h
  apply Bool.eq_false_iff.mpr
  intro hu
  simp only [isUpperA, Bool.and_eq_true, decide_eq_true_eq] at hu
  omega

theorem isDigitA_not_lower {c : Char} (h : isDigitA c = true) : isLowerA c = false := by
  simp only [isDigitA, Bool.and_eq_true, decide_eq_true_eq] at h
  apply Bool.eq_false_iff.mpr
  intro hu
  simp only [isLowerA, Bool.and_eq_true, decide_eq_true_eq] at hu
  omega

theorem isLowerA_not_upper {c : Char} (h : isLowerA c = true) : isUpperA c = false := by
  simp only [isLowerA, Bool.and_eq_true, decide_eq_true_eq] at h
  apply Bool.eq_false_iff.mpr
  intro hu
  simp only [isUpperA, Bool.and_eq_true, decide_eq_true_eq] at hu
  omega

theorem isLowerA_not_digit {c : Char} (h : isLowerA c = true) : isDigitA c = false := by
  simp only [isLowerA, Bool.and_eq_true, decide_eq_true_eq] at h
  apply Bool.eq_false_iff.mpr
  intro hu
  simp only [isDigitA, Bool.and_eq_true, decide_eq_true_eq] at hu
  omega

/-- C9: for every continuous or integer parameter range with bounds
`(min_value, max_value)` and every value `v`, `is_valid v` returns `true`
if and only if `min_value ≤ v ≤ max_value`; in particular it is `false`
exactly when `v` lies strictly outside the closed interval. -/
theorem c9_is_valid_iff_in_range (mn mx v : ℚ) :
    parameter_range_is_valid mn mx v = true ↔ mn ≤ v ∧ v ≤ mx := by
  simp [parameter_range_is_valid, ge_iff_le]

/-- C8 counterexample: the constructor accepts the empty list, and the
resulting values list is empty, refuting the claimed non-emptiness
invariant for every accepted input. -/
theorem c8_counterexample : categorical_values (CatInput.list []) = [] := rfl

/-- C8 (amended): the values list of a constructed `CategoricalParameter`
is the elementwise string coercion of a list input (so duplicates are
preserved, not deduplicated) and a one-element list for a single non-list
input; it is non-empty whenever the input list is non-empty (the empty
list input is the sole exception to the claimed invariant). -/
theorem c8_values_shape (vs : List PyVal) (v : PyVal) (h : vs ≠ []) :
    categorical_values (CatInput.list vs) = vs.map to_str ∧
    categorical_values (CatInput.list vs) ≠ [] ∧
    categorical_values (CatInput.single v) = [to_str v] := by
  refine ⟨rfl, ?_, rfl⟩
  simpa [categorical_values] using h

/-- Witness for C8 (amended) at a concrete input with a duplicate. -/
theorem c8_values_shape_witness :
    categorical_values (CatInput.list [PyVal.int 1, PyVal.int 1]) =
      [PyVal.int 1, PyVal.int 1].map to_str ∧
    categorical_values (CatInput.list [PyVal.int 1, PyVal.int 1]) ≠ [] ∧
    categorical_values (CatInput.single (PyVal.str "x")) = [to_str (PyVal.str "x")] :=
  c8_values_shape [PyVal.int 1, PyVal.int 1] (PyVal.str "x") (by decide)

/-- C2: evaluation of `MXNet._configure_distribution` at the failing
input.  The source compares the dot-split version components as Python
strings, so `"1.10"` is treated as below the `1.3` lower bound (because
`"10" < "3"` lexicographically) and construction raises, although `1.10`
is numerically at or above the bound — while `"1.9"` and `"1.3"` pass and
add the parameter-server flag and `"1.2"` correctly fails.  The code thus
contradicts its own error message (valid for versions 1.3 and higher). -/
theorem c2_version_check_divergence :
    mxnet_configure_distribution "1.10" (some ⟨some (some true)⟩) =
      .error (.valueError distributions_version_error) ∧
    mxnet_configure_distribution "1.9" (some ⟨some (some true)⟩) =
      .ok [(LAUNCH_PS_ENV_NAME, true)] ∧
    mxnet_configure_distribution "1.3" (some ⟨some (some true)⟩) =
      .ok [(LAUNCH_PS_ENV_NAME, true)] ∧
    mxnet_configure_distribution "1.2" (some ⟨some (some true)⟩) =
      .error (.valueError distributions_version_error) ∧
    mxnet_configure_distribution "1.10" none = .ok [] := by
  refine ⟨rfl, rfl, rfl, rfl, rfl⟩

/-- C3 counterexample: for the input list `[1]` (a Python int), the
single element of `as_json_range(...)["Values"]` JSON-decodes to the
string `"1"`, not to the original integer `1` — string coercion happens
before JSON encoding, so pre-coercion values are not recovered. -/
theorem c3_counterexample :
    as_json_range_values (CatInput.list [PyVal.int 1]) = [json_dumps_str "1"] ∧
    (as_json_range_values (CatInput.list [PyVal.int 1])).map json_loads_str =
      [some (PyVal.str "1")] ∧
    some (PyVal.str "1") ≠ some (PyVal.int 1) := by
  refine ⟨rfl, by decide, by decide⟩

/-- C1: for every (toolkit, toolkit_version, framework) entry of the
support table and either device segment, building the image tag from
`_image_version()` plus the device and python-version segments and
reverse-parsing it with `_toolkit_and_version_from_tag` recovers the
toolkit and toolkit_version; the framework is recovered from the
`rl-<framework>` repo segment; and the recovered triple passes the
supportedness check used by the reconstruction path. -/
theorem c1_tag_round_trip :
    ∀ t ∈ rl_supported_triples, ∀ device ∈ ["cpu", "gpu"],
      toolkit_and_version_from_tag (rl_image_tag t.1 t.2.1 device PYTHON_VERSION) =
        some (t.1, t.2.1) ∧
      rl_framework_from_repo (rl_image_framework t.2.2) = some t.2.2 ∧
      is_combination_supported t.1 t.2.1 t.2.2 = true := by decide

/-- Witness for C1 at the coach 0.11.1 tensorflow entry with the gpu
device. -/
theorem c1_tag_round_trip_witness :
    toolkit_and_version_from_tag (rl_image_tag "coach" "0.11.1" "gpu" PYTHON_VERSION) =
      some ("coach", "0.11.1") ∧
    rl_framework_from_repo (rl_image_framework "tensorflow") = some "tensorflow" ∧
    is_combination_supported "coach" "0.11.1" "tensorflow" = true :=
  c1_tag_round_trip ("coach", "0.11.1", "tensorflow") (by decide) "gpu" (by decide)

/-- C10: even with an explicit `image_name`, the enum-typed arguments are
still format-validated: a toolkit argument that is not an `RLToolkit`
member raises `ValueError`, and (when the toolkit argument passes or is
absent) a framework argument that is not an `RLFramework` member raises
`ValueError`; the explicit image does not bypass the validation. -/
theorem c10_enum_validation_not_bypassed :
    ∀ (f : RLFramework) (t t2 : RLToolkit) (tkv : Option String) (fwArg : Option RLArg)
      (img : String) (md : Option (List MetricDefinition)),
      rl_init (some (.framework f)) tkv fwArg (some img) md =
        .error (.valueError (toolkit_format_error f.value)) ∧
      rl_init (some (.toolkit t2)) tkv (some (.toolkit t)) (some img) md =
        .error (.valueError (framework_format_error t.value)) ∧
      rl_init none tkv (some (.toolkit t)) (some img) md =
        .error (.valueError (framework_format_error t.value)) := by
  intro f t t2 tkv fwArg img md
  refine ⟨?_, ?_, ?_⟩ <;>
    simp [rl_init, validate_images_args, validate_toolkit_format,
      validate_framework_format, RLArg.inRLToolkit, RLArg.inRLFramework, RLArg.value]

theorem lookupAssoc_mem {α : Type} (xs : List (String × α)) (k : String) (v : α)
    (h : lookupAssoc xs k = some v) : (k, v) ∈ xs := by
  induction xs with
  | nil => simp [lookupAssoc] at h
  | cons p rest ih =>
    obtain ⟨k0, v0⟩ := p
    simp only [lookupAssoc] at h
    by_cases hk : k0 = k
    · subst hk
      simp at h
      subst h
      exact List.mem_cons_self _ _
    · simp [hk] at h
      exact List.mem_cons_of_mem _ (ih h)

theorem lookupTFV_chain (tk tkv fw v : String) (h : lookupTFV tk tkv fw = some v) :
    ∃ vs fws, lookupAssoc TOOLKIT_FRAMEWORK_VERSION_MAP tk = some vs ∧
      lookupAssoc vs tkv = some fws ∧ lookupAssoc fws fw = some v := by
  unfold lookupTFV at h
  cases h1 : lookupAssoc TOOLKIT_FRAMEWORK_VERSION_MAP tk with
  | none => rw [h1] at h; cases h
  | some vs =>
    rw [h1] at h
    dsimp only at h
    cases h2 : lookupAssoc vs tkv with
    | none => rw [h2] at h; cases h
    | some fws =>
      rw [h2] at h
      dsimp only at h
      exact ⟨vs, fws, rfl, h2, h⟩

theorem supported_iff_lookupTFV (tk tkv fw : String) :
    is_combination_supported tk tkv fw = true ↔
      ∃ v, lookupTFV tk tkv fw = some v ∧ v ≠ "" := by
  unfold is_combination_supported lookupTFV
  cases h1 : lookupAssoc TOOLKIT_FRAMEWORK_VERSION_MAP tk with
  | none => simp
  | some vs =>
    dsimp only
    cases h2 : lookupAssoc vs tkv with
    | none =>
      by_cases hve : vs.isEmpty <;> simp [hve]
    | some fws =>
      dsimp only
      have hvs : vs.isEmpty = false := by
        have := List.ne_nil_of_mem (lookupAssoc_mem vs tkv fws h2)
        simpa [List.isEmpty_iff] using this
      cases h3 : lookupAssoc fws fw with
      | none =>
        by_cases hfe : fws.isEmpty <;> simp [hvs, hfe]
      | some v =>
        dsimp only
        have hfs : fws.isEmpty = false := by
          have := List.ne_nil_of_mem (lookupAssoc_mem fws fw v h3)
          simpa [List.isEmpty_iff] using this
        simp [hvs, hfs]

theorem supported_chain (tk tkv fw : String)
    (h : is_combination_supported tk tkv fw = true) :
    ∃ vs fws v, (tk, vs) ∈ TOOLKIT_FRAMEWORK_VERSION_MAP ∧
      (tkv, fws) ∈ vs ∧ (fw, v) ∈ fws := by
  obtain ⟨v, hv, _⟩ := (supported_iff_lookupTFV tk tkv fw).mp h
  obtain ⟨vs, fws, h1, h2, h3⟩ := lookupTFV_chain tk tkv fw v hv
  exact ⟨vs, fws, v, lookupAssoc_mem _ _ _ h1, lookupAssoc_mem _ _ _ h2,
    lookupAssoc_mem _ _ _ h3⟩

theorem table_frameworks : ∀ p ∈ TOOLKIT_FRAMEWORK_VERSION_MAP, ∀ q ∈ p.2, ∀ r ∈ q.2,
    r.1 = "tensorflow" ∨ r.1 = "mxnet" := by decide

theorem table_versions_nonempty : ∀ p ∈ TOOLKIT_FRAMEWORK_VERSION_MAP, ∀ q ∈ p.2,
    q.1 ≠ "" := by decide

theorem supported_framework_cases (tk tkv fw : String)
    (h : is_combination_supported tk tkv fw = true) : fw = "tensorflow" ∨ fw = "mxnet" := by
  obtain ⟨vs, fws, v, h1, h2, h3⟩ := supported_chain tk tkv fw h
  exact table_frameworks _ h1 _ h2 _ h3

/-- C6: constructing an `RLEstimator` without an explicit image from a
triple absent from the support table fails with a configuration error
(an `AttributeError`), raised by the pure validation logic before any
remote interaction; for a triple present in the table construction
succeeds and `framework_version` is exactly the table entry. -/
theorem c6_support_table_resolution :
    ∀ (tk : RLToolkit) (tkv : String) (f : RLFramework),
      (lookupTFV tk.value tkv f.value = none → tkv ≠ "" →
        rl_init (some (.toolkit tk)) (some tkv) (some (.framework f)) none none =
          .error (.attributeError (unsupported_combination_error tk.value tkv f.value))) ∧
      (∀ v, lookupTFV tk.value tkv f.value = some v → v ≠ "" →
        rl_init (some (.toolkit tk)) (some tkv) (some (.framework f)) none none =
          .ok ({ toolkit := some tk.value, toolkit_version := some tkv,
                 framework := some f.value, framework_version := some v,
                 image_name := none,
                 metric_definitions := some (default_metric_definitions (some (.toolkit tk))) },
               [])) := by
  intro tk tkv f
  constructor
  · intro hnone htkv
    have hval : validate_images_args (some (.toolkit tk)) (some tkv) (some (.framework f))
        none = .ok [] := by
      simp [validate_images_args, validate_toolkit_format, validate_framework_format,
        RLArg.inRLToolkit, RLArg.inRLFramework, falsyStr, htkv]
    have hsup : is_combination_supported tk.value tkv f.value = false := by
      rw [Bool.eq_false_iff]
      intro hs
      obtain ⟨v, hv, _⟩ := (supported_iff_lookupTFV _ _ _).mp hs
      rw [hnone] at hv
      cases hv
    simp [rl_init, hval, falsyStr, RLArg.value, hsup]
  · intro v hv hvne
    have htkv : tkv ≠ "" := by
      obtain ⟨vs, fws, h1, h2, _⟩ := lookupTFV_chain _ _ _ _ hv
      exact table_versions_nonempty _ (lookupAssoc_mem _ _ _ h1) _ (lookupAssoc_mem _ _ _ h2)
    have hval : validate_images_args (some (.toolkit tk)) (some tkv) (some (.framework f))
        none = .ok [] := by
      simp [validate_images_args, validate_toolkit_format, validate_framework_format,
        RLArg.inRLToolkit, RLArg.inRLFramework, falsyStr, htkv]
    have hsup : is_combination_supported tk.value tkv f.value = true :=
      (supported_iff_lookupTFV _ _ _).mpr ⟨v, hv, hvne⟩
    simp [rl_init, hval, falsyStr, RLArg.value, hsup, falsyMD, hv]

/-- Witness for C6: the ray/0.5.3/mxnet triple is rejected, and the
coach/0.11.1/tensorflow triple resolves framework_version 1.12. -/
theorem c6_support_table_resolution_witness :
    rl_init (some (.toolkit .ray)) (some "0.5.3") (some (.framework .mxnet)) none none =
      .error (.attributeError (unsupported_combination_error "ray" "0.5.3" "mxnet")) ∧
    rl_init (some (.toolkit .coach)) (some "0.11.1") (some (.framework .tensorflow)) none none =
      .ok ({ toolkit := some "coach", toolkit_version := some "0.11.1",
             framework := some "tensorflow", framework_version := some "1.12",
             image_name := none,
             metric_definitions :=
               some (default_metric_definitions (some (.toolkit .coach))) }, []) :=
  ⟨(c6_support_table_resolution .ray "0.5.3" .mxnet).1 (by decide) (by decide),
   (c6_support_table_resolution .coach "0.11.1" .tensorflow).2 "1.12" (by decide) (by decide)⟩

/-- C5: with an explicit `image_name` and valid enum arguments,
construction succeeds, the ignore warning is logged, and the toolkit
arguments are ignored entirely — the resulting attribute state equals the
state of a construction without them, `train_image` returns exactly the
explicit image, and the hyperparameter mapping consists of the base
entries plus the two fixed toolkit-independent entries. -/
theorem c5_explicit_image_ignores_toolkit (tk : RLToolkit) (tkv : String) (f : RLFramework)
    (img : String) (md : Option (List MetricDefinition)) (registry device : String)
    (base : List (String × String)) (out : String) (himg : img ≠ "") :
    rl_init (some (.toolkit tk)) (some tkv) (some (.framework f)) (some img) md =
      .ok ({ toolkit := none, toolkit_version := none, framework := none,
             framework_version := none, image_name := some img,
             metric_definitions := md },
           [image_ignore_warning
             ("toolkit" :: ((if tkv = "" then [] else ["toolkit_version"]) ++ ["framework"]))]) ∧
    rl_init none none none (some img) md =
      .ok ({ toolkit := none, toolkit_version := none, framework := none,
             framework_version := none, image_name := some img,
             metric_definitions := md }, []) ∧
    rl_train_image { toolkit := none, toolkit_version := none, framework := none,
                     framework_version := none, image_name := some img,
                     metric_definitions := md } registry device = img ∧
    rl_hyperparameters base out =
      base ++ [(SAGEMAKER_OUTPUT_LOCATION, json_dumps_str out),
               (SAGEMAKER_ESTIMATOR, json_dumps_str SAGEMAKER_ESTIMATOR_VALUE)] := by
  refine ⟨?_, ?_, ?_, rfl⟩
  · by_cases htkv : tkv = "" <;>
      simp [rl_init, validate_images_args, validate_toolkit_format, validate_framework_format,
        RLArg.inRLToolkit, RLArg.inRLFramework, falsyStr, himg, htkv]
  · simp [rl_init, validate_images_args, validate_toolkit_format, validate_framework_format,
      falsyStr, himg]
  · simp [rl_train_image, falsyStr, himg]

/-- Witness for C5 at a concrete explicit image. -/
theorem c5_explicit_image_ignores_toolkit_witness :
    rl_init (some (.toolkit .coach)) (some "0.11.1") (some (.framework .tensorflow))
        (some "123.dkr.ecr.us-west-2.amazonaws.com/my-image:1.0") none =
      .ok ({ toolkit := none, toolkit_version := none, framework := none,
             framework_version := none,
             image_name := some "123.dkr.ecr.us-west-2.amazonaws.com/my-image:1.0",
             metric_definitions := none },
           [image_ignore_warning
             ("toolkit" :: ((if ("0.11.1" : String) = "" then [] else ["toolkit_version"]) ++
               ["framework"]))]) ∧
    rl_init none none none (some "123.dkr.ecr.us-west-2.amazonaws.com/my-image:1.0") none =
      .ok ({ toolkit := none, toolkit_version := none, framework := none,
             framework_version := none,
             image_name := some "123.dkr.ecr.us-west-2.amazonaws.com/my-image:1.0",
             metric_definitions := none }, []) ∧
    rl_train_image { toolkit := none, toolkit_version := none, framework := none,
                     framework_version := none,
                     image_name := some "123.dkr.ecr.us-west-2.amazonaws.com/my-image:1.0",
                     metric_definitions := none } "reg" "cpu" =
      "123.dkr.ecr.us-west-2.amazonaws.com/my-image:1.0" ∧
    rl_hyperparameters [("k", "v")] "s3-out" =
      [("k", "v")] ++ [(SAGEMAKER_OUTPUT_LOCATION, json_dumps_str "s3-out"),
                       (SAGEMAKER_ESTIMATOR, json_dumps_str SAGEMAKER_ESTIMATOR_VALUE)] :=
  c5_explicit_image_ignores_toolkit .coach "0.11.1" .tensorflow
    "123.dkr.ecr.us-west-2.amazonaws.com/my-image:1.0" none "reg" "cpu"
    [("k", "v")] "s3-out" (by decide)

/-- C4: a job description whose image decodes to a framework different
from the one of the reconstructing class is rejected with a `ValueError`
naming the training job — for the MXNet path any recognized framework
other than mxnet, and for the RL path any recognized framework that backs
no supported toolkit combination (in particular any framework other than
tensorflow and mxnet, whatever the tag). -/
theorem c4_framework_mismatch_fatal :
    (∀ (fw py tag img job : String), fw ≠ "" → fw ≠ mxnet_framework_name →
      mxnet_prepare_init_params (some fw) py tag img job =
        .error (.valueError (mismatch_error job))) ∧
    (∀ (fw tag img job : String), fw ≠ "" → fw ≠ "tensorflow" → fw ≠ "mxnet" →
      rl_prepare_init_params (some fw) tag img job =
        .error (.valueError (mismatch_error job))) := by
  constructor
  · intro fw py tag img job h1 h2
    simp [mxnet_prepare_init_params, falsyStr, h1, mxnet_framework_name] at h2 ⊢
    simp [h2]
  · intro fw tag img job h1 h2 h3
    have hsup : ∀ tk tkv, is_combination_supported tk tkv fw = false := by
      intro tk tkv
      rw [Bool.eq_false_iff]
      intro hs
      rcases supported_framework_cases tk tkv fw hs with h | h
      · exact h2 h
      · exact h3 h
    simp only [rl_prepare_init_params, falsyStr]
    rw [if_neg (by simp [h1])]
    cases hparse : toolkit_and_version_from_tag tag with
    | none => simp
    | some p =>
      obtain ⟨ptk, ptkv⟩ := p
      simp [hsup]

theorem validTagTail_cases (t : List Char) (h : validTagTail t = true) :
    t = "-cpu-py2".toList ∨ t = "-cpu-py3".toList ∨
    t = "-gpu-py2".toList ∨ t = "-gpu-py3".toList := by
  simpa [validTagTail, Bool.or_eq_true, or_assoc] using h

theorem validTagTail_length (t : List Char) (h : validTagTail t = true) : t.length = 8 := by
  rcases validTagTail_cases t h with h0 | h0 | h0 | h0 <;> subst h0 <;> rfl

theorem validTagTail_last_ne_nl (t : List Char) (h : validTagTail t = true) :
    t.getLast? ≠ some nlChar := by
  rcases validTagTail_cases t h with h0 | h0 | h0 | h0 <;> subst h0 <;> decide

theorem versionOk_shape (v : List Char) (h : versionOk v = true) :
    ∃ d vs, v = d :: vs ∧ isDigitA d = true := by
  cases v with
  | nil => simp [versionOk] at h
  | cons d vs =>
    simp only [versionOk, Bool.and_eq_true] at h
    exact ⟨d, vs, rfl, h.1⟩

theorem splitLettersVersion_sound (p l v : List Char)
    (h : splitLettersVersion p = some (l, v)) :
    p = l ++ v ∧ ((∀ c ∈ l, isUpperA c = true) ∨ (∀ c ∈ l, isLowerA c = true)) ∧
      versionOk v = true := by
  unfold splitLettersVersion at h
  by_cases h1 : versionOk (p.dropWhile isUpperA) = true
  · rw [if_pos h1] at h
    simp only [Option.some.injEq, Prod.mk.injEq] at h
    obtain ⟨rfl, rfl⟩ := h
    exact ⟨(List.takeWhile_append_dropWhile _ _).symm,
      .inl (fun c hc => List.mem_takeWhile_imp hc), h1⟩
  · rw [if_neg h1] at h
    dsimp only at h
    by_cases h2 : versionOk (p.dropWhile isLowerA) = true
    · rw [if_pos h2] at h
      simp only [Option.some.injEq, Prod.mk.injEq] at h
      obtain ⟨rfl, rfl⟩ := h
      exact ⟨(List.takeWhile_append_dropWhile _ _).symm,
        .inr (fun c hc => List.mem_takeWhile_imp hc), h2⟩
    · rw [if_neg h2] at h
      cases h

theorem splitLettersVersion_complete_upper (l v : List Char)
    (hl : ∀ c ∈ l, isUpperA c = true) (hv : versionOk v = true) :
    splitLettersVersion (l ++ v) = some (l, v) := by
  obtain ⟨d, vs, rfl, hd⟩ := versionOk_shape v hv
  have ht : (l ++ d :: vs).takeWhile isUpperA = l := by
    rw [List.takeWhile_append_of_pos hl,
      takeWhile_cons_neg _ _ _ (isDigitA_not_upper hd), List.append_nil]
  have hdp : (l ++ d :: vs).dropWhile isUpperA = d :: vs := by
    rw [List.dropWhile_append_of_pos hl,
      dropWhile_cons_neg _ _ _ (isDigitA_not_upper hd)]
  unfold splitLettersVersion
  rw [ht, hdp, if_pos hv]

theorem splitLettersVersion_complete (l v : List Char)
    (hl : (∀ c ∈ l, isUpperA c = true) ∨ (∀ c ∈ l, isLowerA c = true))
    (hv : versionOk v = true) :
    splitLettersVersion (l ++ v) = some (l, v) := by
  by_cases hup : ∀ c ∈ l, isUpperA c = true
  · exact splitLettersVersion_complete_upper l v hup hv
  · have hlow : ∀ c ∈ l, isLowerA c = true := hl.resolve_left hup
    obtain ⟨d, vs, rfl, hd⟩ := versionOk_shape v hv
    cases l with
    | nil => exact absurd (by simp) hup
    | cons c0 l1 =>
      have hc0 : isLowerA c0 = true := hlow c0 (List.mem_cons_self _ _)
      have htu : List.takeWhile isUpperA (c0 :: (l1 ++ d :: vs)) = [] :=
        takeWhile_cons_neg _ _ _ (isLowerA_not_upper hc0)
      have hdu : List.dropWhile isUpperA (c0 :: (l1 ++ d :: vs)) = c0 :: (l1 ++ d :: vs) :=
        dropWhile_cons_neg _ _ _ (isLowerA_not_upper hc0)
      have hvu : versionOk (c0 :: (l1 ++ d :: vs)) = false := by
        simp [versionOk, isLowerA_not_digit hc0]
      have htl : List.takeWhile isLowerA (c0 :: (l1 ++ d :: vs)) = c0 :: l1 := by
        have h0 : List.takeWhile isLowerA ((c0 :: l1) ++ (d :: vs)) = c0 :: l1 := by
          rw [List.takeWhile_append_of_pos hlow,
            takeWhile_cons_neg _ _ _ (isDigitA_not_lower hd), List.append_nil]
        simpa using h0
      have hdl : List.dropWhile isLowerA (c0 :: (l1 ++ d :: vs)) = d :: vs := by
        have h0 : List.dropWhile isLowerA ((c0 :: l1) ++ (d :: vs)) = d :: vs := by
          rw [List.dropWhile_append_of_pos hlow,
            dropWhile_cons_neg _ _ _ (isDigitA_not_lower hd)]
        simpa using h0
      unfold splitLettersVersion
      simp [htu, hdu, htl, hdl, hvu, hv]

theorem rlTagCoreParse_sound (s l v : List Char)
    (h : rlTagCoreParse s = some (l, v)) : TagCoreMatch s l v := by
  unfold rlTagCoreParse at h
  by_cases hlen : s.length < 8
  · rw [if_pos hlen] at h; cases h
  · rw [if_neg hlen] at h
    dsimp only at h
    by_cases hts : validTagTail (s.drop (s.length - 8)) = true
    · rw [if_pos hts] at h
      obtain ⟨hp, hlet, hver⟩ := splitLettersVersion_sound _ _ _ h
      refine ⟨s.drop (s.length - 8), ?_, hlet, hver, hts⟩
      rw [← hp, List.take_append_drop]
    · rw [if_neg hts] at h; cases h

theorem rlTagCoreParse_complete (s l v : List Char) (h : TagCoreMatch s l v) :
    rlTagCoreParse s = some (l, v) := by
  obtain ⟨t, rfl, hl, hv, ht⟩ := h
  have ht8 : t.length = 8 := validTagTail_length t ht
  unfold rlTagCoreParse
  have hlen8 : (l ++ v ++ t).length = l.length + v.length + 8 := by
    simp [List.length_append, ht8]
    omega
  have hnot : ¬ (l ++ v ++ t).length < 8 := by omega
  rw [if_neg hnot]
  dsimp only
  have hsub : (l ++ v ++ t).length - 8 = (l ++ v).length := by
    rw [hlen8, List.length_append]
    omega
  have htake : (l ++ v ++ t).take ((l ++ v ++ t).length - 8) = l ++ v := by
    rw [hsub]
    exact List.take_left (l ++ v) t
  have hdrop : (l ++ v ++ t).drop ((l ++ v ++ t).length - 8) = t := by
    rw [hsub]
    exact List.drop_left (l ++ v) t
  rw [htake, hdrop, if_pos ht]
  exact splitLettersVersion_complete l v hl hv

theorem tagCoreMatch_last_ne_nl (s l v : List Char) (h : TagCoreMatch s l v) :
    s.getLast? ≠ some nlChar := by
  obtain ⟨t, rfl, _, _, ht⟩ := h
  have htne : t ≠ [] := by
    intro h0
    rw [h0] at ht
    simp [validTagTail] at ht
  rw [List.getLast?_append_of_ne_nil _ htne]
  exact validTagTail_last_ne_nl t ht

theorem rlTagParse_iff (s l v : List Char) :
    rlTagParse s = some (l, v) ↔ TagMatch s l v := by
  unfold rlTagParse
  by_cases hnl : s.getLast? = some nlChar
  · rw [if_pos (by simp [hnl])]
    constructor
    · intro h
      right
      obtain ⟨s0, hs0⟩ := List.getLast?_eq_some_iff.mp hnl
      refine ⟨s.dropLast, ?_, rlTagCoreParse_sound _ _ _ h⟩
      rw [hs0, List.dropLast_concat]
    · intro h
      rcases h with hcore | ⟨s0, rfl, hcore⟩
      · exact absurd hnl (tagCoreMatch_last_ne_nl _ _ _ hcore)
      · rw [List.dropLast_concat]
        exact rlTagCoreParse_complete _ _ _ hcore
  · rw [if_neg (by simp [hnl])]
    constructor
    · intro h
      exact .inl (rlTagCoreParse_sound _ _ _ h)
    · intro h
      rcases h with hcore | ⟨s0, rfl, hcore⟩
      · exact rlTagCoreParse_complete _ _ _ hcore
      · exfalso
        apply hnl
        rw [List.getLast?_append_of_ne_nil s0 (by simp : ([nlChar] : List Char) ≠ [])]
        rfl

/-- C7: the reverse tag parser returns exactly the (letters, version)
pair on every tag matched by the fixed anchored pattern
`<toolkit-or-framework-letters><version>-<cpu|gpu>-<py2|py3>` (with the
Python `$` allowance of a single trailing newline) and, being a total
function into an option type, returns the `(None, None)` result — without
raising — on every tag admitting no such decomposition; in particular the
tag `coach0.11-gpu-py3` yields toolkit `coach` and version `0.11`. -/
theorem c7_tag_parse_spec :
    (∀ (s l v : List Char), rlTagParse s = some (l, v) ↔ TagMatch s l v) ∧
    toolkit_and_version_from_tag "coach0.11-gpu-py3" = some ("coach", "0.11") := by
  exact ⟨rlTagParse_iff, by decide⟩

theorem string_mk_toList (s : String) : String.mk s.toList = s := by
  cases s
  rfl

theorem hexDigit_roundtrip : ∀ d : Fin 16, parseHexDigit (hexDigitChar d.val) = some d.val := by
  decide

theorem parseHexDigit_hexDigitChar (n : Nat) (h : n < 16) :
    parseHexDigit (hexDigitChar n) = some n := hexDigit_roundtrip ⟨n, h⟩

theorem parseStringBody_escape (s rest : List Char) (h : ∀ c ∈ s, c.toNat < 65536) :
    parseStringBody ((s.map jsonEscapeChar).flatten ++ (quoteChar :: rest)) =
      some (s, rest) := by
  induction s with
  | nil =>
    rw [List.map_nil, List.flatten_nil, List.nil_append, parseStringBody.eq_def]
    simp
  | cons c s1 ih =>
    have hc : c.toNat < 65536 := h c (List.mem_cons_self _ _)
    have ih2 := ih (fun x hx => h x (List.mem_cons_of_mem _ hx))
    simp only [List.map_cons, List.flatten_cons, List.append_assoc]
    by_cases h1 : c = quoteChar
    · have henc : jsonEscapeChar c = [bsChar, quoteChar] := by
        simp [jsonEscapeChar, h1]
      rw [henc, parseStringBody.eq_def]
      subst h1
      simp +decide [ih2]
    · by_cases h2 : c = bsChar
      · have henc : jsonEscapeChar c = [bsChar, bsChar] := by
          simp +decide [jsonEscapeChar, h1, h2]
        rw [henc, parseStringBody.eq_def]
        subst h2
        simp +decide [ih2]
      · by_cases h3 : c.toNat = 8
        · have henc : jsonEscapeChar c = [bsChar, 'b'] := by
            simp [jsonEscapeChar, h1, h2, h3]
          have hch : Char.ofNat 8 = c := by rw [← h3, Char.ofNat_toNat]
          rw [henc, parseStringBody.eq_def]
          simp +decide [ih2, hch]
          all_goals exact hch
        · by_cases h4 : c.toNat = 9
          · have henc : jsonEscapeChar c = [bsChar, 't'] := by
              simp [jsonEscapeChar, h1, h2, h3, h4]
            have hch : Char.ofNat 9 = c := by rw [← h4, Char.ofNat_toNat]
            rw [henc, parseStringBody.eq_def]
            simp +decide [ih2, hch]
            all_goals exact hch
          · by_cases h5 : c.toNat = 10
            · have henc : jsonEscapeChar c = [bsChar, 'n'] := by
                simp [jsonEscapeChar, h1, h2, h3, h4, h5]
              have hch : Char.ofNat 10 = c := by rw [← h5, Char.ofNat_toNat]
              rw [henc, parseStringBody.eq_def]
              simp +decide [ih2, hch]
              all_goals exact hch
            · by_cases h6 : c.toNat = 12
              · have henc : jsonEscapeChar c = [bsChar, 'f'] := by
                  simp [jsonEscapeChar, h1, h2, h3, h4, h5, h6]
                have hch : Char.ofNat 12 = c := by rw [← h6, Char.ofNat_toNat]
                rw [henc, parseStringBody.eq_def]
                simp +decide [ih2, hch]
                all_goals exact hch
              · by_cases h7 : c.toNat = 13
                · have henc : jsonEscapeChar c = [bsChar, 'r'] := by
                    simp [jsonEscapeChar, h1, h2, h3, h4, h5, h6, h7]
                  have hch : Char.ofNat 13 = c := by rw [← h7, Char.ofNat_toNat]
                  rw [henc, parseStringBody.eq_def]
                  simp +decide [ih2, hch]
                  all_goals exact hch
                · by_cases h8 : c.toNat < 32 ∨ 127 ≤ c.toNat
                  · have henc : jsonEscapeChar c =
                        [bsChar, 'u', hexDigitChar (c.toNat / 4096 % 16),
                         hexDigitChar (c.toNat / 256 % 16), hexDigitChar (c.toNat / 16 % 16),
                         hexDigitChar (c.toNat % 16)] := by
                      simp only [jsonEscapeChar]
                      rw [if_neg (by simp [h1]), if_neg (by simp [h2]), if_neg (by simp [h3]),
                        if_neg (by simp [h4]), if_neg (by simp [h5]), if_neg (by simp [h6]),
                        if_neg (by simp [h7]), if_pos (by simpa using h8)]
                    have e1 : parseHexDigit (hexDigitChar (c.toNat / 4096 % 16)) =
                        some (c.toNat / 4096 % 16) :=
                      parseHexDigit_hexDigitChar _ (Nat.mod_lt _ (by norm_num))
                    have e2 : parseHexDigit (hexDigitChar (c.toNat / 256 % 16)) =
                        some (c.toNat / 256 % 16) :=
                      parseHexDigit_hexDigitChar _ (Nat.mod_lt _ (by norm_num))
                    have e3 : parseHexDigit (hexDigitChar (c.toNat / 16 % 16)) =
                        some (c.toNat / 16 % 16) :=
                      parseHexDigit_hexDigitChar _ (Nat.mod_lt _ (by norm_num))
                    have e4 : parseHexDigit (hexDigitChar (c.toNat % 16)) =
                        some (c.toNat % 16) :=
                      parseHexDigit_hexDigitChar _ (Nat.mod_lt _ (by norm_num))
                    have hval : 4096 * (c.toNat / 4096 % 16) + 256 * (c.toNat / 256 % 16) +
                        16 * (c.toNat / 16 % 16) + c.toNat % 16 = c.toNat := by omega
                    have hofn : Char.ofNat c.toNat = c := Char.ofNat_toNat c
                    rw [henc, parseStringBody.eq_def]
                    simp +decide [ih2, e1, e2, e3, e4, hval, hofn]
                  · have henc : jsonEscapeChar c = [c] := by
                      simp only [jsonEscapeChar]
                      rw [if_neg (by simp [h1]), if_neg (by simp [h2]), if_neg (by simp [h3]),
                        if_neg (by simp [h4]), if_neg (by simp [h5]), if_neg (by simp [h6]),
                        if_neg (by simp [h7]), if_neg (by simpa using h8)]
                    have hge : ¬ c.toNat < 32 := fun hlt => h8 (.inl hlt)
                    rw [henc, List.singleton_append, parseStringBody.eq_def]
                    simp [h1, h2, hge, ih2]

theorem json_loads_dumps_str (s : String) (h : ∀ c ∈ s.toList, c.toNat < 65536) :
    json_loads_str (json_dumps_str s) = some (.str s) := by
  obtain ⟨sd⟩ := s
  have hp := parseStringBody_escape sd [] (by simpa [String.toList] using h)
  unfold json_loads_str json_dumps_str jsonDumpsChars
  rw [json_loads_chars.eq_def]
  simp +decide [String.toList, hp]

/-- C3 (amended): every element of `as_json_range(...)["Values"]` is a
valid JSON document, and JSON-decoding the elements yields exactly the
string-coerced stored values (`self.values`), not the pre-coercion
inputs.  The hypothesis restricts string characters to the basic
multilingual plane, the range the embedded JSON model covers. -/
theorem c3_json_values_decode (inp : CatInput)
    (h : ∀ s ∈ categorical_values inp, ∀ c ∈ s.toList, c.toNat < 65536) :
    (as_json_range_values inp).map json_loads_str =
      (categorical_values inp).map (fun s => some (PyVal.str s)) := by
  unfold as_json_range_values
  rw [List.map_map]
  exact List.map_congr_left (fun s hs => json_loads_dumps_str s (h s hs))

/-- Witness for C3 (amended) at a concrete mixed input list. -/
theorem c3_json_values_decode_witness :
    (as_json_range_values (CatInput.list [PyVal.int 1, PyVal.str "a"])).map json_loads_str =
      (categorical_values (CatInput.list [PyVal.int 1, PyVal.str "a"])).map
        (fun s => some (PyVal.str s)) :=
  c3_json_values_decode (CatInput.list [PyVal.int 1, PyVal.str "a"]) (by decide)

/-- Witness for C4 with a chainer image on both reconstruction paths. -/
theorem c4_framework_mismatch_fatal_witness :
    mxnet_prepare_init_params (some "chainer") "py3" "4.0-gpu-py3" "img" "jobA" =
      .error (.valueError (mismatch_error "jobA")) ∧
    rl_prepare_init_params (some "chainer") "coach0.11-gpu-py3" "img" "jobB" =
      .error (.valueError (mismatch_error "jobB")) :=
  ⟨c4_framework_mismatch_fatal.1 "chainer" "py3" "4.0-gpu-py3" "img" "jobA"
      (by decide) (by decide),
   c4_framework_mismatch_fatal.2 "chainer" "coach0.11-gpu-py3" "img" "jobB"
      (by decide) (by decide) (by decide)⟩

end SagemakerSdk
